import Mathlib

/-!
# Verification of the urllib3-future connection-pool core

Shallow embedding of the connection-pooling subsystem vendored under
`src/CitiBike/citibiketrips/Lib/site-packages/`:

* `urllib3_future/connectionpool.py` — `HTTPConnectionPool._new_conn`,
  `_get_conn`, `_put_conn`, `urlopen`, `get_response`, the constructor's
  background-monitor configuration, and `HTTPSConnectionPool._new_conn`;
* `urllib3/contrib/resolver/factories.py` — `ResolverDescription.from_url`
  query-parameter processing.

Auxiliary collaborators that the repository imports but that are not under
`src/` (the `TrafficPolice` slot manager, `Retry`, the `_constant` minima,
`NOT_FORWARDABLE_HEADERS`) are modelled from the specification's words and
are marked as such in their doc comments.
-/

set_option autoImplicit false

namespace Urllib3Future

/-- Model of one transport connection as the pool observes it: identity,
idle/busy state (`is_idle`), HTTP/2+ multiplexing capability, the
saturation predicate used by slot acquisition, whether the persistent
socket was dropped (`is_connection_dropped`), and closed state. -/
structure Conn where
  id : Nat
  is_idle : Bool := true
  multiplexed : Bool := false
  saturated : Bool := false
  dropped : Bool := false
  closed : Bool := false
  deriving DecidableEq

/-- `conn.close()`: mark the transport closed. -/
def Conn.close (c : Conn) : Conn := { c with closed := true }

/-- Modelled from the spec: the `TrafficPolice` slot manager
(`urllib3_future/util/traffic_police.py`, not under `src/`). Spec §4.2: a
bounded registry of live connections; `get` returns an idle connection
satisfying the non-saturation predicate or fails with an "empty"
condition; `put` fails with a "full" condition if at capacity and
non-blocking. `maxsize` is optional because `_put_conn` (connectionpool.py
line 766) guards `self.pool.maxsize is not None`. -/
structure TrafficPolice where
  maxsize : Option Nat
  conns : List Conn := []
  deriving DecidableEq

/-- `TrafficPolice.qsize()`. -/
def TrafficPolice.qsize (tp : TrafficPolice) : Nat := tp.conns.length

/-- Remove the first element satisfying `p`, keeping the rest in order. -/
def extractFirst (p : Conn → Bool) : List Conn → Option (Conn × List Conn)
  | [] => none
  | c :: rest =>
    if p c then some (c, rest)
    else
      match extractFirst p rest with
      | some (c', rest') => some (c', c :: rest')
      | none => none

/-- Modelled from the spec (§4.2): `TrafficPolice.get`; leases out the
first idle connection that passes the non-saturation predicate. `none`
models raising `queue.Empty` — in blocking mode this is the state after
the blocking timeout elapsed without a connection becoming available. -/
def TrafficPolice.get (tp : TrafficPolice) (non_saturated_only : Bool) :
    Option (Conn × TrafficPolice) :=
  match extractFirst (fun c => c.is_idle && (!non_saturated_only || !c.saturated)) tp.conns with
  | some (c, rest) => some (c, { tp with conns := rest })
  | none => none

/-- Modelled from the spec (§4.2): non-blocking `TrafficPolice.put`;
`none` models raising `queue.Full`, which happens exactly when the pool
is at capacity. -/
def TrafficPolice.put (tp : TrafficPolice) (c : Conn) : Option TrafficPolice :=
  match tp.maxsize with
  | some m =>
    if m ≤ tp.qsize then none
    else some { tp with conns := tp.conns ++ [c] }
  | none => some { tp with conns := tp.conns ++ [c] }

/-- The exceptions of `urllib3_future/exceptions.py` reachable in this
model, plus two modelling artifacts: `outOfFuel` (bounded recursion) and
`scriptExhausted` (the environment script ran out). -/
inductive Err
  | ClosedPoolError
  | EmptyPoolError
  | FullPoolError
  | NewConnectionError
  | MaxRetryError
  | outOfFuel
  | scriptExhausted
  deriving DecidableEq

/-- State of one `HTTPConnectionPool`: `pool` is the slot manager, `none`
after `close()` set `self.pool = None`; `block` the blocking flag;
`num_connections` the live-connection counter (an `Int`: the code
decrements it unconditionally); `dial_ok` is the environment's answer to
a fresh dial attempt; `next_id` generates fresh connection identities. -/
structure PoolState where
  pool : Option TrafficPolice
  block : Bool := false
  num_connections : Int := 0
  dial_ok : Bool := true
  next_id : Nat := 0
  deriving DecidableEq

/-- `HTTPConnectionPool._new_conn` (connectionpool.py lines 480-669) at
the pool-state level: the closed-pool guard (line 484), the
`num_connections` increment under `locate_or_hold` (line 488), and the
production of a fresh connection that the `swapper` installs leased to
the caller. The Happy-Eyeballs address planning inside it is modelled
separately by `heb_plan`; whether the dial succeeds is the environment
input `dial_ok` (on failure a `NewConnectionError` propagates,
lines 640-643). -/
def _new_conn (p : PoolState) : Except Err (Conn × PoolState) :=
  match p.pool with
  | none => .error .ClosedPoolError
  | some _ =>
    let p' := { p with num_connections := p.num_connections + 1, next_id := p.next_id + 1 }
    if p.dial_ok then
      .ok ({ id := p.next_id }, p')
    else
      .error .NewConnectionError

/-- `HTTPConnectionPool._get_conn` (connectionpool.py lines 671-719): the
closed-pool guard (line 687); `pool.get` with `non_saturated_only=True`
(line 691); on `queue.Empty` either `EmptyPoolError` (blocking, lines
697-702) or fall through to a fresh dial (line 703, 711); a dropped
persistent connection is closed before being returned (lines 706-708).
The `except TypeError` branch (lines 712-719) concerns subclasses that
override `_new_conn` and is outside this model. -/
def _get_conn (p : PoolState) : Except Err (Conn × PoolState) :=
  match p.pool with
  | none => .error .ClosedPoolError
  | some tp =>
    match tp.get true with
    | some (conn, tp') =>
      let conn := if conn.dropped then conn.close else conn
      .ok (conn, { p with pool := some tp' })
    | none =>
      if p.block then .error .EmptyPoolError
      else _new_conn p

/-- Observable outcome of `_put_conn`: the new pool state, whether the
connection was discarded (not kept in the pool), and the final state of
the connection object (possibly closed). -/
structure PutResult where
  state : PoolState
  discarded : Bool
  conn_final : Conn
  deriving DecidableEq

/-- `HTTPConnectionPool._put_conn` (connectionpool.py lines 721-781).
On `queue.Full`: an idle connection is closed (lines 745-747); blocking
pools raise `FullPoolError` (lines 749-754); a non-idle connection (a
multiplexed connection still servicing in-flight requests) bumps
`self.pool.maxsize` by one and is re-put (lines 758-768); otherwise the
connection is discarded and `num_connections` decremented (lines
770-776). With `self.pool is None` the connection is silently closed and
discarded (lines 778-781) — no exception is raised. `fuel` bounds the
number of calls (a modelling artifact; in the code one re-put level
suffices because the bumped maxsize admits the connection). -/
def _put_conn : Nat → PoolState → Conn → Except Err PutResult
  | 0, _, _ => .error .outOfFuel
  | fuel + 1, p, conn =>
    match p.pool with
    | some tp =>
      match tp.put conn with
      | some tp' => .ok ⟨{ p with pool := some tp' }, false, conn⟩
      | none =>
        let conn := if conn.is_idle then conn.close else conn
        if p.block then .error .FullPoolError
        else if conn.is_idle then
          .ok ⟨{ p with num_connections := p.num_connections - 1 }, true, conn⟩
        else
          let tp2 : TrafficPolice :=
            { tp with maxsize := match tp.maxsize with | some m => some (m + 1) | none => none }
          _put_conn fuel { p with pool := some tp2 } conn
    | none =>
      .ok ⟨{ p with num_connections := p.num_connections - 1 }, true, conn.close⟩

/-! ## Happy-Eyeballs address planning (`_new_conn`, lines 498-669 and
`HTTPSConnectionPool._new_conn`, lines 2102-2152) -/

/-- Socket address family of a resolved address (`ip_address[0]`). -/
inductive AddrFamily
  | v4
  | v6
  deriving DecidableEq

/-- One resolved address as `_resolver.getaddrinfo` returns it, reduced
to the fields `_new_conn` inspects: the family and the target address. -/
structure Addr where
  family : AddrFamily
  addr : String
  deriving DecidableEq

/-- `ip_address[0] == socket.AF_INET6` (line 522). -/
def Addr.isV6 (a : Addr) : Bool :=
  match a.family with
  | .v6 => true
  | .v4 => false

/-- The `happy_eyeballs` constructor option: `bool | int`. -/
inductive HappyEyeballs
  | flag (b : Bool)
  | cap (n : Nat)
  deriving DecidableEq

/-- `max_task = 4 if isinstance(self.happy_eyeballs, bool) else
self.happy_eyeballs` (lines 551-555). -/
def HappyEyeballs.max_task : HappyEyeballs → Nat
  | .flag _ => 4
  | .cap n => n

/-- The `zip_longest` interleaving of lines 534-542: for each pair the
IPv6 entry is appended first, then the IPv4 entry, missing entries
skipped. -/
def interleaveAddrs : List Addr → List Addr → List Addr
  | [], l4 => l4
  | l6, [] => l6
  | a6 :: l6, a4 :: l4 => a6 :: a4 :: interleaveAddrs l6 l4

/-- What `_new_conn` does with the resolved addresses: either a single
direct sequential attempt (`conn is None` path, the "Happy-Eyeball
Ineligible" branch), or a concurrent race over the listed endpoints in
launch order. -/
inductive ConnPlan
  | direct
  | race (attempts : List Addr)
  deriving DecidableEq

/-- The address-planning logic of `_new_conn` (connectionpool.py lines
517-567; textually identical in `HTTPSConnectionPool._new_conn` lines
2102-2152): with more than one resolved address, split by family
(lines 518-525), interleave when both families are present (lines
527-542), then race the first `max_task` endpoints (line 567); with at
most one address the racing machinery is skipped entirely and a direct
connection attempt is made (lines 652-665). -/
def heb_plan (ip_addresses : List Addr) (happy_eyeballs : HappyEyeballs) : ConnPlan :=
  if 1 < ip_addresses.length then
    let ipv6_addresses := ip_addresses.filter (fun a => a.isV6)
    let ipv4_addresses := ip_addresses.filter (fun a => !a.isV6)
    let ordered :=
      if !ipv4_addresses.isEmpty && !ipv6_addresses.isEmpty then
        interleaveAddrs ipv6_addresses ipv4_addresses
      else ip_addresses
    .race (ordered.take happy_eyeballs.max_task)
  else
    .direct

/-- Durations of the two phases of the Happy-Eyeballs path: the resolver
call (`getaddrinfo`, lines 506-514) and the subsequent racing of the
challengers (`event.wait()`, line 625). -/
structure HebTrace where
  resolve_duration : Nat
  race_duration : Nat
  deriving DecidableEq

/-- Timestamps the Happy-Eyeballs path records on an abstract `Nat`
timeline: `dt_pre_resolve` is taken just before the resolver call (line
505), `delta_post_resolve` is computed immediately after resolution
returns and before any challenger is launched (line 515), the race then
runs until `t_winner`, and the winner's `conn_info.resolution_latency`
is overwritten with `delta_post_resolve` (lines 647-649). -/
structure HebTiming where
  dt_pre_resolve : Nat
  delta_post_resolve : Nat
  t_winner : Nat
  resolution_latency : Nat
  deriving DecidableEq

/-- Run the timing of `_new_conn`'s Happy-Eyeballs path from instant
`start`, mirroring the order of operations of lines 505-649. -/
def heb_run_timing (start : Nat) (tr : HebTrace) : HebTiming :=
  let dt_pre := start
  let t_post := start + tr.resolve_duration
  let delta := t_post - dt_pre
  let t_won := t_post + tr.race_duration
  { dt_pre_resolve := dt_pre
    delta_post_resolve := delta
    t_winner := t_won
    resolution_latency := delta }

/-! ## Background-monitor configuration (`__init__`, lines 439-470) -/

/-- The clamping of the background-monitoring parameters in
`HTTPConnectionPool.__init__` (connectionpool.py lines 439-470). The
minima `MINIMAL_BACKGROUND_WATCH_WINDOW` and
`MINIMAL_KEEPALIVE_IDLE_WINDOW` come from `._constant` (not under
`src/`) and are abstract parameters here. Returns the
`(background_watch_delay, keepalive_idle_window)` pair the monitor
thread is started with (lines 458-468), or `none` when no monitor is
started (line 470). -/
def background_monitor_config (MIN_BWD MIN_KIW : ℚ)
    (background_watch_delay keepalive_idle_window : Option ℚ) :
    Option (ℚ × Option ℚ) :=
  match background_watch_delay with
  | none => none
  | some bwd =>
    if MIN_BWD ≤ bwd then
      let kiw : Option ℚ :=
        match keepalive_idle_window with
        | some k => if k < MIN_KIW then some MIN_KIW else some k
        | none => none
      let bwd' : ℚ :=
        match kiw with
        | some k => if k < bwd then k else bwd
        | none => bwd
      some (bwd', kiw)
    else none

/-! ## Python string primitives

The Python string operations the embedded code uses, implemented over
character lists so that they evaluate by kernel reduction. The text
reaching them in this code is URL/header ASCII. -/

/-- Python `str.lower` restricted to its ASCII behavior. -/
def pyLower (s : String) : String :=
  String.mk (s.toList.map Char.toLower)

/-- Python `str.strip(" ")`: remove leading and trailing space
characters. -/
def stripSpaces (s : String) : String :=
  String.mk (((s.toList.dropWhile (· = ' ')).reverse.dropWhile (· = ' ')).reverse)

/-- Python `"," in value`. -/
def pyHasComma (s : String) : Bool :=
  s.toList.contains ','

/-- Python `str.split(sep)` for a one-character separator. -/
def pySplit (sep : Char) (s : String) : List String :=
  (s.toList.splitOn sep).map String.mk

/-- Python `str.isdigit` restricted to its ASCII behavior: non-empty and
all decimal digits. -/
def pyIsDigit (s : String) : Bool :=
  !s.toList.isEmpty && s.toList.all Char.isDigit

/-- Decimal value of an all-digit string. -/
def natOfDigits (s : String) : Nat :=
  s.toList.foldl (fun n c => n * 10 + (c.toNat - 48)) 0

/-- The float test of factories.py lines 201-205: exactly one dot, not
in first position, and all remaining characters digits. -/
def looksFloat (s : String) : Bool :=
  let cs := s.toList
  cs.count '.' = 1 && 0 < cs.indexOf '.' && pyIsDigit (String.mk (cs.filter (· ≠ '.')))

/-- Value of a float-looking string as numerator and power-of-ten
denominator (Python `float(value)` on such input, exactly). -/
def pyFloat (s : String) : Nat × Nat :=
  match s.toList.splitOn '.' with
  | [ip, fp] => (natOfDigits (String.mk (ip ++ fp)), 10 ^ fp.length)
  | _ => (0, 1)

/-! ## Request dispatch: `urlopen` (lines 1491-1947) and the
redirect handling of `get_response` (lines 825-1092) -/

/-- Modelled from the spec: the retry state (`util/retry.py` is not
under `src/`). Spec §3 "Retry State": immutable-update accumulated
count; governs backoff sleeps and terminal give-up (a max-retries
condition); policy flags `raise_on_redirect` / `raise_on_status` decide
whether exhaustion raises or returns the last response; the configured
retry predicate matches status codes (spec §4.5). -/
structure Retry where
  total : Nat
  raise_on_redirect : Bool := true
  raise_on_status : Bool := true
  status_forcelist : List Nat := []
  deriving DecidableEq

/-- Modelled from the spec: `Retry.increment` returns a new state with
one more retry consumed, or `none` for the max-retries condition. -/
def Retry.increment? (r : Retry) : Option Retry :=
  if r.total = 0 then none else some { r with total := r.total - 1 }

/-- Modelled from the spec (§4.5): the configured retry predicate
matching the response status code. -/
def Retry.is_retry (r : Retry) (status : Nat) : Bool :=
  r.status_forcelist.contains status

/-- One dispatched request: the arguments `urlopen` hands to
`_make_request` (method, url, body, headers). -/
structure Request where
  method : String
  url : String
  body : Option String
  headers : List (String × String)
  deriving DecidableEq

/-- A received response, reduced to the fields `urlopen` inspects:
status, `get_redirect_location()`, and the presence of a `Retry-After`
header. -/
structure Response where
  status : Nat
  redirect_location : Option String
  has_retry_after : Bool := false
  deriving DecidableEq

/-- Environment behavior of one `_make_request` call: a response, or a
transport-level exception of the caught family (timeout / protocol /
SSL / proxy / recoverable, lines 1762-1771). -/
inductive MakeOutcome
  | success (r : Response)
  | transport
  deriving DecidableEq

/-- Modelled from the spec: `NOT_FORWARDABLE_HEADERS`
(`util/request.py` is not under `src/`): the "fixed set of
non-forwardable headers (Authorization, Cookie, etc.)", held lowercase
for case-insensitive comparison. -/
def NOT_FORWARDABLE_HEADERS : List String :=
  ["authorization", "proxy-authorization", "cookie", "host"]

/-- The loop `for should_be_removed_header in NOT_FORWARDABLE_HEADERS:
headers.discard(...)` (urlopen lines 1881-1882, get_response lines
982-983); `HTTPHeaderDict.discard` removes case-insensitively. -/
def discardNotForwardable (headers : List (String × String)) : List (String × String) :=
  headers.filter (fun kv => !(NOT_FORWARDABLE_HEADERS.contains (pyLower kv.1)))

/-- The 303 redirect preparation of `get_response` (connectionpool.py
lines 977-983): on a 303 the method becomes GET, the body is dropped
and the non-forwardable headers are discarded; otherwise the request
context is resubmitted unchanged. -/
def get_response_redirect_prepare (status : Nat) (method : String)
    (body : Option String) (headers : List (String × String)) :
    String × Option String × List (String × String) :=
  if status = 303 then ("GET", none, discardNotForwardable headers)
  else (method, body, headers)

deriving instance DecidableEq for Except

/-- Observable outcome of a `urlopen` call: its result, the requests
handed to `_make_request` in order (`sent`), the requests passed to
recursive resubmission calls in order (`resubmits`), the number of
backoff sleeps performed, and the final retry state. -/
structure UrlopenOut where
  result : Except Err Response
  sent : List Request
  resubmits : List Request
  sleeps : Nat
  retriesOut : Retry
  deriving DecidableEq

/-- `HTTPConnectionPool.urlopen` (connectionpool.py lines 1491-1947),
non-multiplexed path, with `_make_request` behavior supplied by
`script` and the recursive resubmission bounded by `fuel`:

* connection acquisition via `_get_conn` (line 1692); a
  `ClosedPoolError` is not of the caught family and propagates;
* `except EmptyPoolError:` (lines 1756-1760) — `clean_exit = True`,
  the error is re-raised unchanged, no retry increment, no sleep;
* a dial failure (`NewConnectionError`, a `ConnectTimeoutError`
  subclass) and any transport-level `_make_request` failure fall into
  the generic handler (lines 1762-1794): the retry state is
  incremented (raising `MaxRetryError` on exhaustion), a backoff sleep
  is performed, the connection is discarded and the request is retried
  (lines 1839-1864);
* on a clean exit the connection is released back to the pool
  (`finally`, lines 1830-1835);
* a redirect response (lines 1872-1912): on a 303 the method becomes
  GET, the body is dropped and the non-forwardable headers discarded
  (lines 1876-1882); the retry state is incremented — on `MaxRetryError`
  either raise or return the response per `raise_on_redirect` (lines
  1884-1890) — then sleep and resubmit to the redirect location;
* a retryable status (lines 1914-1945): increment — on `MaxRetryError`
  either raise or return per `raise_on_status` — then sleep and
  resubmit the same request. -/
def urlopen : Nat → PoolState → Request → Bool → Retry → List MakeOutcome → UrlopenOut
  | 0, _, _, _, retries, _ => ⟨.error .outOfFuel, [], [], 0, retries⟩
  | fuel + 1, p, req, redirect, retries, script =>
    match _get_conn p with
    | .error .ClosedPoolError => ⟨.error .ClosedPoolError, [], [], 0, retries⟩
    | .error .EmptyPoolError => ⟨.error .EmptyPoolError, [], [], 0, retries⟩
    | .error _ =>
      match retries.increment? with
      | none => ⟨.error .MaxRetryError, [], [], 0, retries⟩
      | some retries' =>
        let r := urlopen fuel p req redirect retries' script
        ⟨r.result, r.sent, req :: r.resubmits, r.sleeps + 1, r.retriesOut⟩
    | .ok (conn, p1) =>
      match script with
      | [] => ⟨.error .scriptExhausted, [], [], 0, retries⟩
      | outcome :: rest =>
        match outcome with
        | .transport =>
          match retries.increment? with
          | none => ⟨.error .MaxRetryError, [req], [], 0, retries⟩
          | some retries' =>
            let r := urlopen fuel p1 req redirect retries' rest
            ⟨r.result, req :: r.sent, req :: r.resubmits, r.sleeps + 1, r.retriesOut⟩
        | .success resp =>
          let p2 : PoolState :=
            match _put_conn 2 p1 conn with
            | .ok pr => pr.state
            | .error _ => p1
          match (if redirect then resp.redirect_location else none) with
          | some loc =>
            let next : String × Option String × List (String × String) :=
              if resp.status = 303 then
                ("GET", none, discardNotForwardable req.headers)
              else (req.method, req.body, req.headers)
            match retries.increment? with
            | none =>
              if retries.raise_on_redirect then ⟨.error .MaxRetryError, [req], [], 0, retries⟩
              else ⟨.ok resp, [req], [], 0, retries⟩
            | some retries' =>
              let req' : Request := ⟨next.1, loc, next.2.1, next.2.2⟩
              let r := urlopen fuel p2 req' redirect retries' rest
              ⟨r.result, req :: r.sent, req' :: r.resubmits, r.sleeps + 1, r.retriesOut⟩
          | none =>
            if retries.is_retry resp.status then
              match retries.increment? with
              | none =>
                if retries.raise_on_status then ⟨.error .MaxRetryError, [req], [], 0, retries⟩
                else ⟨.ok resp, [req], [], 0, retries⟩
              | some retries' =>
                let r := urlopen fuel p2 req redirect retries' rest
                ⟨r.result, req :: r.sent, req :: r.resubmits, r.sleeps + 1, r.retriesOut⟩
            else ⟨.ok resp, [req], [], 0, retries⟩

/-! ## Resolver URL query parsing
(`ResolverDescription.from_url`, factories.py lines 141-210) -/

/-- A resolver constructor option value: the possible shapes `from_url`
stores into `kwargs` — a raw string, a list (from comma-separated or
repeated parameters), or a coerced boolean / integer / float scalar. -/
inductive QVal
  | str (s : String)
  | vlist (l : List QVal)
  | bool (b : Bool)
  | int (n : Nat)
  | float (num den : Nat)

/-- The scalar coercion of lines 195-210: `"false"`/`"true"` become a
boolean, an all-digit value becomes an int, a float-looking value
becomes a float, anything else stays a string. -/
def coerceScalar (value : String) : QVal :=
  if value = "false" || value = "true" then .bool (value = "true")
  else if pyIsDigit value then .int (natOfDigits value)
  else if looksFloat value then .float (pyFloat value).1 (pyFloat value).2
  else .str value

/-- `key in kwargs` on the insertion-ordered dict model. -/
def kwGet? (l : List (String × QVal)) (k : String) : Option QVal :=
  (l.find? (fun kv => kv.1 = k)).map (fun kv => kv.2)

/-- `kwargs[key] = v` on the insertion-ordered dict model: replace in
place, or append when the key is new. -/
def kwSet (l : List (String × QVal)) (k : String) (v : QVal) : List (String × QVal) :=
  if (l.find? (fun kv => kv.1 = k)).isSome then
    l.map (fun kv => if kv.1 = k then (k, v) else kv)
  else l ++ [(k, v)]

/-- The accumulator of the query loop: the reserved `implementation`
variable (line 179) and the `kwargs` dict (line 122). -/
structure ParseState where
  implementation : Option String := none
  kwargs : List (String × QVal) := []

/-- The comma expansion of a multi-valued parameter (lines 157-163). -/
def splitCommaItems (items : List String) : List String :=
  (items.map (fun e => if pyHasComma e then pySplit ',' e else [e])).flatten

/-- One iteration of the query-parameter loop of
`ResolverDescription.from_url` (factories.py lines 144-210):

* empty value lists are skipped (lines 145-146);
* a parameter with more than one value: `implementation` is reserved
  and raises `ValueError` (lines 154-155); otherwise the values are
  comma-expanded and stored as a list under the lowercased name, merged
  into an existing entry when present (lines 157-174);
* a single value is lowercased and space-stripped (line 176);
  `implementation` is captured into its own slot (lines 178-180); a
  value containing commas is split into a list (lines 182-193) — note
  that when an existing entry under that key is not a list, lines
  188-190 compute a merged list but never store it, leaving `kwargs`
  unchanged; otherwise the scalar is coerced and stored (lines
  195-210). -/
def processQueryParam (st : ParseState) (parameter : String) (pvalues : List String) :
    Except String ParseState :=
  let parameter_insensible := pyLower parameter
  match pvalues with
  | [] => .ok st
  | v0 :: v1 :: vrest =>
    if parameter = "implementation" then
      .error "Only one implementation can be passed to URL"
    else
      let values := splitCommaItems (v0 :: v1 :: vrest)
      match kwGet? st.kwargs parameter_insensible with
      | some (.vlist l) =>
        .ok { st with kwargs := kwSet st.kwargs parameter_insensible (.vlist (l ++ values.map .str)) }
      | some other =>
        .ok { st with kwargs := kwSet st.kwargs parameter_insensible (.vlist (values.map .str ++ [other])) }
      | none =>
        .ok { st with kwargs := kwSet st.kwargs parameter_insensible (.vlist (values.map .str)) }
  | [v0] =>
    let value := stripSpaces (pyLower v0)
    if parameter = "implementation" then
      .ok { st with implementation := some value }
    else if pyHasComma value then
      let list_of_values := pySplit ',' value
      match kwGet? st.kwargs parameter_insensible with
      | some (.vlist l) =>
        .ok { st with kwargs := kwSet st.kwargs parameter_insensible (.vlist (l ++ list_of_values.map .str)) }
      | some _ => .ok st
      | none =>
        .ok { st with kwargs := kwSet st.kwargs parameter_insensible (.vlist (list_of_values.map .str)) }
    else
      .ok { st with kwargs := kwSet st.kwargs parameter_insensible (coerceScalar value) }

/-- The whole query-parameter loop of `ResolverDescription.from_url`
(factories.py lines 141-210) over the already-parsed query — the
`parse_qs` output as an ordered parameter → values map. -/
def from_url_query (params : List (String × List String)) : Except String ParseState :=
  params.foldlM (fun st pv => processQueryParam st pv.1 pv.2) {}

/-! ## Concrete fixtures for counterexamples and witnesses -/

/-- An idle connection fixture. -/
def connEx : Conn := { id := 7 }

/-- A busy (non-idle) connection fixture, as a multiplexed connection
with an in-flight promise presents itself. -/
def busyConnEx : Conn := { id := 8, is_idle := false, multiplexed := true }

/-- A pool on which `close()` has run: `self.pool = None`. -/
def closedPoolEx : PoolState := { pool := none }

/-- A non-blocking pool whose slot manager is empty (no reusable
connection available). -/
def emptyNonblockingPoolEx : PoolState := { pool := some ⟨some 1, []⟩, block := false }

/-- A blocking pool whose slot manager is empty. -/
def emptyBlockingPoolEx : PoolState := { pool := some ⟨some 1, []⟩, block := true }

/-- A non-blocking pool at capacity: `maxsize = 1` and one idle
connection stored. -/
def fullPoolEx : PoolState := { pool := some ⟨some 1, [connEx]⟩, block := false }

/-- A pool holding one idle reusable connection. -/
def readyPoolEx : PoolState := { pool := some ⟨some 1, [connEx]⟩, block := false }

/-! ## C1 — closed-pool behavior of `_get_conn` and `_put_conn` -/

/-- C1 counterexample: on a closed pool (`self.pool is None`),
`_put_conn` does NOT raise `ClosedPoolError` — connectionpool.py lines
778-781 silently close and discard the connection and return normally,
so the claim that both `_get_conn` and `_put_conn` raise
`ClosedPoolError` after `close()` is false. -/
theorem C1_put_conn_closed_no_raise :
    _put_conn 1 closedPoolEx connEx ≠ Except.error Err.ClosedPoolError := by
  decide

/-- C1 (amended): after `close()` (`self.pool = None`), `_get_conn`
fails fast with `ClosedPoolError` (line 687-688), while `_put_conn`
raises nothing: it closes the connection, discards it and decrements the
live-connection counter (lines 778-781), regardless of retry or
blocking configuration. -/
theorem C1_closed_pool_behavior (p : PoolState) (conn : Conn) (fuel : Nat)
    (h : p.pool = none) :
    _get_conn p = .error .ClosedPoolError ∧
    _put_conn (fuel + 1) p conn =
      .ok ⟨{ p with num_connections := p.num_connections - 1 }, true, conn.close⟩ := by
  constructor
  · simp [_get_conn, h]
  · simp [_put_conn, h]

/-- C1 witness: the amended theorem applied to a concrete closed pool. -/
theorem C1_closed_pool_behavior_witness :
    _get_conn closedPoolEx = .error .ClosedPoolError ∧
    _put_conn 1 closedPoolEx connEx =
      .ok ⟨{ closedPoolEx with num_connections := closedPoolEx.num_connections - 1 },
           true, connEx.close⟩ :=
  C1_closed_pool_behavior closedPoolEx connEx 0 rfl

/-! ## C5 — `_put_conn` on a full non-blocking pool -/

set_option maxRecDepth 8000

/-- C5: on `queue.Full` in a non-blocking pool (connectionpool.py lines
743-776), a non-idle connection (a multiplexed connection still
servicing an in-flight promise) raises the pool's `maxsize` ceiling by
exactly one and is retained in the pool (lines 758-768), while an idle
connection is closed and discarded, decrementing the live-connection
counter (lines 745-747 and 770-776). -/
theorem C5_full_pool_put (p : PoolState) (tp : TrafficPolice) (m : Nat)
    (conn : Conn) (fuel : Nat)
    (hpool : p.pool = some tp) (hmax : tp.maxsize = some m)
    (hfull : tp.qsize = m) (hblock : p.block = false) :
    (conn.is_idle = false →
      _put_conn (fuel + 2) p conn =
        .ok ⟨{ p with pool := some ⟨some (m + 1), tp.conns ++ [conn]⟩ }, false, conn⟩) ∧
    (conn.is_idle = true →
      _put_conn (fuel + 2) p conn =
        .ok ⟨{ p with num_connections := p.num_connections - 1 }, true, conn.close⟩) := by
  have hlen : tp.conns.length = m := hfull
  constructor
  · intro hidle
    simp [_put_conn, hpool, TrafficPolice.put, hmax, hblock, hidle,
      TrafficPolice.qsize, hlen]
  · intro hidle
    simp [_put_conn, hpool, TrafficPolice.put, hmax, hblock, hidle,
      TrafficPolice.qsize, hlen, Conn.close]

/-- C5 witness: the theorem applied to a concrete full non-blocking
pool, once with a busy multiplexed connection (ceiling extended, kept)
and once with an idle one (closed, discarded). -/
theorem C5_full_pool_put_witness :
    _put_conn 2 fullPoolEx busyConnEx =
      .ok ⟨{ fullPoolEx with pool := some ⟨some 2, [connEx, busyConnEx]⟩ },
           false, busyConnEx⟩ ∧
    _put_conn 2 fullPoolEx connEx =
      .ok ⟨{ fullPoolEx with num_connections := fullPoolEx.num_connections - 1 },
           true, connEx.close⟩ :=
  ⟨(C5_full_pool_put fullPoolEx ⟨some 1, [connEx]⟩ 1 busyConnEx 0
      rfl rfl rfl rfl).1 rfl,
   (C5_full_pool_put fullPoolEx ⟨some 1, [connEx]⟩ 1 connEx 0
      rfl rfl rfl rfl).2 rfl⟩

/-! ## C10 — non-blocking `_get_conn` never raises `EmptyPoolError` -/

/-- C10: on an open pool with `block=False`, `_get_conn` never raises
`EmptyPoolError` (connectionpool.py lines 697-703: the `queue.Empty`
condition is swallowed when not blocking); when the slot manager has no
idle non-saturated connection, `_get_conn` falls through to `_new_conn`
(line 711), which dials a fresh connection. -/
theorem C10_nonblocking_no_empty_pool_error (p : PoolState) (tp : TrafficPolice)
    (hblock : p.block = false) (hpool : p.pool = some tp) :
    _get_conn p ≠ .error .EmptyPoolError ∧
    (tp.get true = none → _get_conn p = _new_conn p) ∧
    (tp.get true = none → p.dial_ok = true →
      _get_conn p =
        .ok (⟨p.next_id, true, false, false, false, false⟩,
             { p with num_connections := p.num_connections + 1,
                      next_id := p.next_id + 1 })) := by
  refine ⟨?_, ?_, ?_⟩
  · cases hget : tp.get true with
    | some cp =>
      simp [_get_conn, hpool, hget]
    | none =>
      cases hdial : p.dial_ok <;>
        simp [_get_conn, hpool, hget, hblock, _new_conn, hdial]
  · intro hget
    simp [_get_conn, hpool, hget, hblock]
  · intro hget hdial
    simp [_get_conn, hpool, hget, hblock, _new_conn, hdial]

/-- C10 witness: the theorem applied to a concrete empty non-blocking
pool: a fresh connection is dialed instead of raising. -/
theorem C10_nonblocking_no_empty_pool_error_witness :
    _get_conn emptyNonblockingPoolEx ≠ .error .EmptyPoolError ∧
    _get_conn emptyNonblockingPoolEx =
      .ok (⟨emptyNonblockingPoolEx.next_id, true, false, false, false, false⟩,
           { emptyNonblockingPoolEx with
               num_connections := emptyNonblockingPoolEx.num_connections + 1,
               next_id := emptyNonblockingPoolEx.next_id + 1 }) :=
  ⟨(C10_nonblocking_no_empty_pool_error emptyNonblockingPoolEx ⟨some 1, []⟩ rfl rfl).1,
   (C10_nonblocking_no_empty_pool_error emptyNonblockingPoolEx ⟨some 1, []⟩ rfl rfl).2.2
     rfl rfl⟩

/-! ## C2 — `EmptyPoolError` is terminal in `urlopen` -/

/-- C2: for a `urlopen` call on a pool with `block=True` whose slot
manager has no connection available within the blocking timeout,
`_get_conn` raises `EmptyPoolError` (lines 697-702) and the dedicated
`except EmptyPoolError` handler (lines 1756-1760) re-raises it
unchanged: no request is dispatched, no resubmission happens, the retry
state is returned untouched and no backoff sleep is performed —
regardless of the retry configuration and of the environment script. -/
theorem C2_empty_pool_terminal (p : PoolState) (tp : TrafficPolice)
    (req : Request) (redirect : Bool) (retries : Retry)
    (script : List MakeOutcome) (fuel : Nat)
    (hpool : p.pool = some tp) (hblock : p.block = true)
    (hempty : tp.get true = none) :
    urlopen (fuel + 1) p req redirect retries script =
      ⟨.error .EmptyPoolError, [], [], 0, retries⟩ := by
  simp [urlopen, _get_conn, hpool, hblock, hempty]

/-- C2 witness: the theorem applied to a concrete blocking pool with an
empty slot manager and a nonzero retry budget. -/
theorem C2_empty_pool_terminal_witness :
    urlopen 5 emptyBlockingPoolEx ⟨"GET", "/", none, []⟩ true ⟨3, true, true, []⟩
        [.success ⟨200, none, false⟩] =
      ⟨.error .EmptyPoolError, [], [], 0, ⟨3, true, true, []⟩⟩ :=
  C2_empty_pool_terminal emptyBlockingPoolEx ⟨some 1, []⟩ ⟨"GET", "/", none, []⟩
    true ⟨3, true, true, []⟩ [.success ⟨200, none, false⟩] 4 rfl rfl rfl

/-! ## C6 — 303 redirect resubmission -/

/-- C6: a 303 redirect response to a request carrying a body and an
Authorization header, with redirect following enabled, is resubmitted
as a GET with no body and with the fixed non-forwardable headers
(Authorization and Cookie among them) stripped, in the synchronous
`urlopen` path (lines 1872-1912) and in the multiplexed `get_response`
path (lines 977-983); every header surviving the strip is outside the
non-forwardable set. -/
theorem C6_redirect_303 :
    (∀ (fuel : Nat) (p p1 : PoolState) (conn : Conn) (req : Request)
        (retries retries' : Retry) (resp : Response) (loc : String)
        (rest : List MakeOutcome),
      _get_conn p = .ok (conn, p1) →
      resp.status = 303 → resp.redirect_location = some loc →
      retries.increment? = some retries' →
      ∃ later,
        (urlopen (fuel + 1) p req true retries (.success resp :: rest)).resubmits =
          ⟨"GET", loc, none, discardNotForwardable req.headers⟩ :: later) ∧
    (∀ (method : String) (body : Option String) (headers : List (String × String)),
      get_response_redirect_prepare 303 method body headers =
        ("GET", none, discardNotForwardable headers)) ∧
    (∀ (headers : List (String × String)) (kv : String × String),
      kv ∈ discardNotForwardable headers →
        NOT_FORWARDABLE_HEADERS.contains (pyLower kv.1) = false) ∧
    "authorization" ∈ NOT_FORWARDABLE_HEADERS ∧ "cookie" ∈ NOT_FORWARDABLE_HEADERS := by
  refine ⟨?_, ?_, ?_, by decide, by decide⟩
  · intro fuel p p1 conn req retries retries' resp loc rest hget h303 hloc hinc
    refine ⟨(urlopen fuel
        (match _put_conn 2 p1 conn with | .ok pr => pr.state | .error _ => p1)
        ⟨"GET", loc, none, discardNotForwardable req.headers⟩ true retries' rest).resubmits,
      ?_⟩
    simp [urlopen, hget, h303, hloc, hinc]
  · intro method body headers
    simp [get_response_redirect_prepare]
  · intro headers kv hmem
    have := List.mem_filter.mp hmem
    simpa using this.2

/-- C6 witness: the theorem applied to a concrete pool and a concrete
POST request carrying a body, an Authorization header and a Cookie: the
follow-up request after a 303 is a GET without body whose headers no
longer contain them. -/
theorem C6_redirect_303_witness :
    (∃ later,
      (urlopen 3 readyPoolEx
          ⟨"POST", "/submit", some "payload",
            [("Authorization", "Bearer t"), ("Cookie", "c=1"), ("Accept", "text/html")]⟩
          true ⟨3, true, true, []⟩
          [.success ⟨303, some "/next", false⟩, .success ⟨200, none, false⟩]).resubmits =
        ⟨"GET", "/next", none, [("Accept", "text/html")]⟩ :: later) ∧
    get_response_redirect_prepare 303 "POST" (some "payload")
        [("Authorization", "Bearer t"), ("Cookie", "c=1"), ("Accept", "text/html")] =
      ("GET", none, [("Accept", "text/html")]) := by
  have hf : discardNotForwardable
      [("Authorization", "Bearer t"), ("Cookie", "c=1"), ("Accept", "text/html")] =
      [("Accept", "text/html")] := by decide
  constructor
  · have h := C6_redirect_303.1 2 readyPoolEx
      { readyPoolEx with pool := some ⟨some 1, []⟩ } connEx
      ⟨"POST", "/submit", some "payload",
        [("Authorization", "Bearer t"), ("Cookie", "c=1"), ("Accept", "text/html")]⟩
      ⟨3, true, true, []⟩ ⟨2, true, true, []⟩ ⟨303, some "/next", false⟩ "/next"
      [.success ⟨200, none, false⟩] rfl rfl rfl rfl
    rw [hf] at h
    exact h
  · have h := C6_redirect_303.2.1 "POST" (some "payload")
      [("Authorization", "Bearer t"), ("Cookie", "c=1"), ("Accept", "text/html")]
    rw [hf] at h
    exact h

/-! ## C3 / C4 — Happy-Eyeballs planning -/

/-- An IPv4 address fixture. -/
def v4aEx : Addr := ⟨.v4, "192.0.2.1"⟩

/-- A second IPv4 address fixture. -/
def v4bEx : Addr := ⟨.v4, "192.0.2.2"⟩

/-- An IPv6 address fixture. -/
def v6aEx : Addr := ⟨.v6, "2001:db8::1"⟩

/-- A second IPv6 address fixture. -/
def v6bEx : Addr := ⟨.v6, "2001:db8::2"⟩

/-- C3 counterexample: for the single-family list `[v4a, v4b]` the code
does NOT bypass racing — the `challengers` racing machinery
(connectionpool.py lines 550-651) sits inside `if len(ip_addresses) > 1:`
(line 517) and runs in the single-stack branch too (lines 543-548), so
both IPv4 addresses are raced concurrently instead of `v4a` being dialed
directly. -/
theorem C3_single_family_races_counterexample :
    heb_plan [v4aEx, v4bEx] (.flag true) = .race [v4aEx, v4bEx] ∧
    heb_plan [v4aEx, v4bEx] (.flag true) ≠ .direct := by
  decide

/-- C3 (amended): the Happy-Eyeballs race is bypassed in favor of one
direct sequential attempt only when the resolved list has at most one
candidate (the "Happy-Eyeball Ineligible" branch, lines 652-665); a
single-family list with more than one address is still raced
concurrently, in resolver order without interleaving, capped at
`max_task` endpoints. -/
theorem C3_bypass_only_single_candidate (addrs : List Addr) (he : HappyEyeballs) :
    (addrs.length ≤ 1 → heb_plan addrs he = .direct) ∧
    (1 < addrs.length →
      (addrs.filter (fun a => a.isV6) = [] ∨ addrs.filter (fun a => !a.isV6) = []) →
      heb_plan addrs he = .race (addrs.take he.max_task)) := by
  constructor
  · intro h
    simp [heb_plan, show ¬(1 < addrs.length) by omega]
  · intro h1 h2
    rcases h2 with h2 | h2 <;> simp [heb_plan, h1, h2]

/-- C3 witness: the amended theorem applied to a one-element list
(bypassed) and to a two-element IPv4-only list (raced untouched). -/
theorem C3_bypass_only_single_candidate_witness :
    heb_plan [v4aEx] (.flag true) = .direct ∧
    heb_plan [v4aEx, v4bEx] (.flag true) =
      .race ([v4aEx, v4bEx].take (HappyEyeballs.flag true).max_task) :=
  ⟨(C3_bypass_only_single_candidate [v4aEx] (.flag true)).1 (by decide),
   (C3_bypass_only_single_candidate [v4aEx, v4bEx] (.flag true)).2
     (by decide) (Or.inl (by decide))⟩

/-- C4: with more than one resolved address and both families present,
the attempts are the two family sublists interleaved alternating and
starting with IPv6 (connectionpool.py lines 527-542), truncated to
`max_task` (line 567) — so at most the configured cap of concurrent
attempts is launched — where `max_task` is 4 when `happy_eyeballs` is a
bool and the given integer otherwise (lines 551-555); concretely,
`[v6a, v6b, v4a]` yields attempt order `[v6a, v4a, v6b]`. -/
theorem C4_dual_stack_interleave :
    (∀ (addrs : List Addr) (he : HappyEyeballs), 1 < addrs.length →
      addrs.filter (fun a => a.isV6) ≠ [] →
      addrs.filter (fun a => !a.isV6) ≠ [] →
      heb_plan addrs he =
        .race ((interleaveAddrs (addrs.filter (fun a => a.isV6))
                 (addrs.filter (fun a => !a.isV6))).take he.max_task) ∧
      ((interleaveAddrs (addrs.filter (fun a => a.isV6))
          (addrs.filter (fun a => !a.isV6))).take he.max_task).length ≤ he.max_task) ∧
    heb_plan [v6aEx, v6bEx, v4aEx] (.flag true) = .race [v6aEx, v4aEx, v6bEx] ∧
    (∀ b, (HappyEyeballs.flag b).max_task = 4) ∧
    (∀ n, (HappyEyeballs.cap n).max_task = n) := by
  refine ⟨?_, by decide, fun b => rfl, fun n => rfl⟩
  intro addrs he h1 h2 h3
  constructor
  · simp [heb_plan, h1, h2, h3]
  · exact List.length_take_le he.max_task _

/-- C4 witness: the universal part applied to the concrete dual-stack
list `[v6a, v4a, v4b]` with an explicit integer cap of 2. -/
theorem C4_dual_stack_interleave_witness :
    heb_plan [v6aEx, v4aEx, v4bEx] (.cap 2) =
      .race ((interleaveAddrs ([v6aEx, v4aEx, v4bEx].filter (fun a => a.isV6))
               ([v6aEx, v4aEx, v4bEx].filter (fun a => !a.isV6))).take
        (HappyEyeballs.cap 2).max_task) ∧
    ((interleaveAddrs ([v6aEx, v4aEx, v4bEx].filter (fun a => a.isV6))
        ([v6aEx, v4aEx, v4bEx].filter (fun a => !a.isV6))).take
      (HappyEyeballs.cap 2).max_task).length ≤ (HappyEyeballs.cap 2).max_task :=
  C4_dual_stack_interleave.1 [v6aEx, v4aEx, v4bEx] (.cap 2)
    (by decide) (by decide) (by decide)

/-! ## C7 — the overwritten resolution-latency metric -/

/-- C7 counterexample: with a resolver call taking 2 time units and a
race taking 5 more, the value written into the winner's
`resolution_latency` is 2, not the 7 units elapsed from just before the
resolver call until the race produced the winner — the claim that the
metric equals the total resolve-then-race elapsed time is false. -/
theorem C7_latency_counterexample :
    (heb_run_timing 0 ⟨2, 5⟩).resolution_latency ≠
      (heb_run_timing 0 ⟨2, 5⟩).t_winner - (heb_run_timing 0 ⟨2, 5⟩).dt_pre_resolve := by
  decide

/-- C7 (amended): the winner's resolution-latency metric is overwritten
with `delta_post_resolve`, the elapsed time of the resolver call alone
(captured at connectionpool.py line 515, from just before the resolver
call until resolution returned, before any challenger is launched); the
race duration is excluded, so the metric differs from the total
resolve-then-race elapsed time by exactly the race duration. -/
theorem C7_latency_is_resolve_only (start : Nat) (tr : HebTrace) :
    (heb_run_timing start tr).resolution_latency = start + tr.resolve_duration - start ∧
    (heb_run_timing start tr).resolution_latency = tr.resolve_duration ∧
    (heb_run_timing start tr).t_winner - (heb_run_timing start tr).dt_pre_resolve =
      tr.resolve_duration + tr.race_duration := by
  refine ⟨by simp [heb_run_timing], by simp [heb_run_timing], ?_⟩
  simp [heb_run_timing]
  omega

/-! ## C8 — background-monitor parameter clamping -/

/-- C8: whenever the background monitor is started (a non-null
`background_watch_delay` at or above the minimal watch window,
connectionpool.py lines 439-442), a `keepalive_idle_window` below the
implementation-defined minimum is clamped up to that minimum (lines
444-448), and a watch delay exceeding the (clamped) idle window is
clamped down to equal the idle window (lines 452-456) — so the watch
delay the monitor thread starts with never exceeds the idle window. -/
theorem C8_monitor_clamping (MIN_BWD MIN_KIW b k : ℚ) (hb : MIN_BWD ≤ b) :
    (k < MIN_KIW →
      background_monitor_config MIN_BWD MIN_KIW (some b) (some k) =
        some (min MIN_KIW b, some MIN_KIW)) ∧
    (MIN_KIW ≤ k →
      background_monitor_config MIN_BWD MIN_KIW (some b) (some k) =
        some (min k b, some k)) ∧
    (∀ b' k', background_monitor_config MIN_BWD MIN_KIW (some b) (some k) =
        some (b', some k') → b' ≤ k') := by
  refine ⟨?_, ?_, ?_⟩
  · intro hk
    simp only [background_monitor_config, if_pos hb, if_pos hk]
    rcases lt_trichotomy MIN_KIW b with h | h | h
    · rw [if_pos h, min_eq_left h.le]
    · rw [if_neg (by simp [h]), h, min_self]
    · rw [if_neg (not_lt.mpr h.le), min_eq_right h.le]
  · intro hk
    simp only [background_monitor_config, if_pos hb, if_neg (not_lt.mpr hk)]
    rcases lt_trichotomy k b with h | h | h
    · rw [if_pos h, min_eq_left h.le]
    · rw [if_neg (by simp [h]), h, min_self]
    · rw [if_neg (not_lt.mpr h.le), min_eq_right h.le]
  · intro b' k' h
    by_cases hk : k < MIN_KIW
    · by_cases hkb : MIN_KIW < b
      · simp [background_monitor_config, if_pos hb, hk, hkb] at h
        obtain ⟨h1, h2⟩ := h
        linarith
      · simp [background_monitor_config, if_pos hb, hk, hkb] at h
        obtain ⟨h1, h2⟩ := h
        have hba : b ≤ MIN_KIW := not_lt.mp hkb
        linarith
    · by_cases hkb : k < b
      · simp [background_monitor_config, if_pos hb, hk, hkb] at h
        obtain ⟨h1, h2⟩ := h
        linarith
      · simp [background_monitor_config, if_pos hb, hk, hkb] at h
        obtain ⟨h1, h2⟩ := h
        have hba : b ≤ k := not_lt.mp hkb
        linarith

/-- C8 witness: the theorem applied to concrete configurations — an
idle window of 1/2 below a minimum of 1 is clamped up, and a watch
delay of 3 above an idle window of 7 is kept while `min` captures the
clamp-down on the other side. -/
theorem C8_monitor_clamping_witness :
    background_monitor_config 0 1 (some 5) (some (1 / 2)) = some (min 1 5, some 1) ∧
    background_monitor_config 0 1 (some 5) (some 3) = some (min 3 5, some 3) ∧
    background_monitor_config 0 1 (some 5) (some 2) = some (2, some 2) :=
  ⟨(C8_monitor_clamping 0 1 5 (1 / 2) (by norm_num)).1 (by norm_num),
   (C8_monitor_clamping 0 1 5 3 (by norm_num)).2.1 (by norm_num),
   ((C8_monitor_clamping 0 1 5 2 (by norm_num)).2.1 (by norm_num)).trans
     (by norm_num)⟩

/-! ## C9 — `ResolverDescription.from_url` query parameters -/

/-- C9: in the query-parameter processing of
`ResolverDescription.from_url` (factories.py lines 141-210): a
single-valued parameter whose (lowercased, space-stripped) value
contains commas is stored as the list of its comma-separated parts
(lines 182-193); a scalar value is coerced — `"false"`/`"true"` to a
boolean, an all-digit value to an integer, a float-looking value to a
float (lines 195-210) — and stored under the lowercased parameter name;
and supplying the reserved `implementation` parameter with more than
one value raises `ValueError` instead of producing a list (lines
150-155). -/
theorem C9_from_url_query_params :
    (∀ (st : ParseState) (param v : String),
      param ≠ "implementation" →
      pyHasComma (stripSpaces (pyLower v)) = true →
      kwGet? st.kwargs (pyLower param) = none →
      processQueryParam st param [v] =
        .ok { st with kwargs := (kwSet st.kwargs (pyLower param)
          (.vlist ((pySplit ',' (stripSpaces (pyLower v))).map .str))) }) ∧
    (∀ v : String, (v = "false" || v = "true") = true →
      coerceScalar v = .bool (v = "true")) ∧
    (∀ v : String, (v = "false" || v = "true") = false → pyIsDigit v = true →
      coerceScalar v = .int (natOfDigits v)) ∧
    (∀ v : String, (v = "false" || v = "true") = false → pyIsDigit v = false →
      looksFloat v = true →
      coerceScalar v = .float (pyFloat v).1 (pyFloat v).2) ∧
    (∀ (st : ParseState) (param v : String),
      param ≠ "implementation" →
      pyHasComma (stripSpaces (pyLower v)) = false →
      processQueryParam st param [v] =
        .ok { st with kwargs := (kwSet st.kwargs (pyLower param)
          (coerceScalar (stripSpaces (pyLower v)))) }) ∧
    (∀ (st : ParseState) (v1 v2 : String) (vs : List String),
      processQueryParam st "implementation" (v1 :: v2 :: vs) =
        .error "Only one implementation can be passed to URL") := by
  refine ⟨?_, ?_, ?_, ?_, ?_, ?_⟩
  · intro st param v hparam hcomma hfresh
    simp [processQueryParam, hparam, hcomma, hfresh]
  · intro v hv
    simp only [coerceScalar, hv, if_pos]
  · intro v hv hd
    simp [coerceScalar, hv, hd]
  · intro v hv hd hf
    simp [coerceScalar, hv, hd, hf]
  · intro st param v hparam hcomma
    simp [processQueryParam, hparam, hcomma]
  · intro st v1 v2 vs
    simp [processQueryParam]

/-- C9 witness: the theorem applied to concrete parameters — a
comma-separated single value becomes a list, `"true"`/`"42"`/`"1.5"`
are coerced to boolean, integer and float, a plain scalar is stored
coerced under the lowercased name, and a doubly-supplied
`implementation` raises. -/
theorem C9_from_url_query_params_witness :
    processQueryParam {} "Hosts" ["A,B"] =
      .ok { implementation := none,
            kwargs := [("hosts", .vlist [.str "a", .str "b"])] } ∧
    coerceScalar "true" = .bool true ∧
    coerceScalar "42" = .int 42 ∧
    coerceScalar "1.5" = .float 15 10 ∧
    processQueryParam {} "Timeout" ["250"] =
      .ok { implementation := none, kwargs := [("timeout", .int 250)] } ∧
    processQueryParam {} "implementation" ["a", "b"] =
      .error "Only one implementation can be passed to URL" := by
  refine ⟨?_, ?_, ?_, ?_, ?_, ?_⟩
  · exact (C9_from_url_query_params.1 {} "Hosts" "A,B"
      (by decide) (by decide) rfl).trans rfl
  · exact (C9_from_url_query_params.2.1 "true" (by decide)).trans rfl
  · exact (C9_from_url_query_params.2.2.1 "42" (by decide) (by decide)).trans rfl
  · exact (C9_from_url_query_params.2.2.2.1 "1.5"
      (by decide) (by decide) (by decide)).trans rfl
  · exact (C9_from_url_query_params.2.2.2.2.1 {} "Timeout" "250"
      (by decide) (by decide)).trans rfl
  · exact C9_from_url_query_params.2.2.2.2.2 {} "a" "b" []

end Urllib3Future
